import Mathlib

/-!
Shallow embedding of `pywemo_setup.py` (a CLI script that discovers, lists,
renames, resets and sets up Belkin Wemo devices), together with theorems
checking the repository's specification against this embedding.

Modelling conventions:
* Python exceptions become the inductive `PyExc`; a computation that can
  raise returns `Res α`, which carries the log/action trace emitted before
  returning or raising.
* Observable side effects (log lines, confirmation prompts, device reset /
  rename / setup actions) are recorded as events of the trace.
* External inputs (the device list returned by `pywemo.discover_devices()`,
  per-device SOAP action outcomes, `nmcli` subprocess outcomes, the answers
  to interactive prompts) are parameters of the embedded functions.
* Log message formatting keeps the information content of the Python
  `%`-format strings; fixed-width padding (`%60s`) is not reproduced, and
  a device is rendered by its friendly name.
-/

/-- Severity levels of the Python `logging` module as used by the script. -/
inductive Level where
  | debug
  | info
  | warning
  | error
  | critical
deriving DecidableEq, Repr

/-- The Python exception kinds relevant to the script.  `SetupException` and
`ResetException` come from `pywemo.ouimeaux_device`; the others are Python
builtins.  `otherError` stands for any exception class not named here (for
example a pywemo `ActionException` raised by a failed SOAP call). -/
inductive PyExc where
  | setupException (msg : String)
  | resetException (msg : String)
  | fileNotFoundError
  | calledProcessError
  | keyError
  | attributeError
  | typeError
  | valueError (msg : String)
  | otherError (msg : String)
deriving DecidableEq, Repr

/-- Python exception class of a `PyExc` value (two values of the same class
are indistinguishable by an `except <Class>` handler). -/
def pyExcClass : PyExc → String
  | .setupException _ => "SetupException"
  | .resetException _ => "ResetException"
  | .fileNotFoundError => "FileNotFoundError"
  | .calledProcessError => "CalledProcessError"
  | .keyError => "KeyError"
  | .attributeError => "AttributeError"
  | .typeError => "TypeError"
  | .valueError _ => "ValueError"
  | .otherError _ => "OtherError"

/-- Rendering of an exception as interpolated into log messages. -/
def reprExc (e : PyExc) : String :=
  match e with
  | .setupException m => "SetupException: " ++ m
  | .resetException m => "ResetException: " ++ m
  | .valueError m => "ValueError: " ++ m
  | .otherError m => "OtherError: " ++ m
  | e => pyExcClass e

/-- Observable events of a run: log lines, interactive prompts, and the
device-affecting remote calls. -/
inductive Ev where
  | log (level : Level) (msg : String)
  | confirmPrompt (msg : String)
  | getpassPrompt
  | resetAttempt (device : String)
  | resetOk (device : String)
  | renameDone (device : String) (newName : String)
  | setupAttempt (device : String)
  | setupOk (device : String)
deriving DecidableEq, Repr

/-- A trace of observable events. -/
abbrev Trace := List Ev

/-- Result of running an embedded fragment of the script: either a normal
return with the emitted trace, or a raised Python exception together with
the trace emitted before the raise. -/
inductive Res (α : Type) where
  | ok (t : Trace) (a : α)
  | err (t : Trace) (e : PyExc)

/-- Sequencing: run `x`; on normal return feed its value to `f`,
concatenating traces; a raised exception propagates. -/
def Res.bind {α β : Type} (x : Res α) (f : α → Res β) : Res β :=
  match x with
  | .ok t a =>
    match f a with
    | .ok t2 b => .ok (t ++ t2) b
    | .err t2 e => .err (t ++ t2) e
  | .err t e => .err t e

/-- Emit a trace and return `()`. -/
def Res.emit (t : Trace) : Res Unit := .ok t ()

/-- The trace of a result, whether it returned or raised. -/
def Res.trace {α : Type} : Res α → Trace
  | .ok t _ => t
  | .err t _ => t

/-- True when the computation returned without raising. -/
def Res.isOk {α : Type} : Res α → Bool
  | .ok _ _ => true
  | .err _ _ => false

/-- The exception raised, if any. -/
def Res.errExc {α : Type} : Res α → Option PyExc
  | .ok _ _ => none
  | .err _ e => some e

/-!  Python string primitives used by the script, defined over the
character list of a `String` so that they evaluate by kernel reduction. -/

/-- Python `str.lower()` (the script only applies it to ASCII data). -/
def pyLower (s : String) : String := ⟨s.data.map Char.toLower⟩

/-- Python `str.strip()` with no argument: remove leading and trailing
whitespace. -/
def pyStrip (s : String) : String :=
  ⟨((s.data.dropWhile Char.isWhitespace).reverse.dropWhile Char.isWhitespace).reverse⟩

/-- Python `str.startswith(p)`. -/
def pyStartsWith (s p : String) : Bool := p.data.isPrefixOf s.data

/-- Split a character list at every occurrence of `sep` (Python
`str.split(sep)` with a one-character separator). -/
def splitOnChar (sep : Char) : List Char → List (List Char)
  | [] => [[]]
  | c :: rest =>
    let r := splitOnChar sep rest
    if c = sep then [] :: r
    else
      match r with
      | [] => [[c]]
      | h :: t => (c :: h) :: t

/-- Python `str.split(sep)` for a one-character separator. -/
def pySplit (s : String) (sep : Char) : List String :=
  (splitOnChar sep s.data).map fun l => ⟨l⟩

/-- Separator line `DASHES`; in the script its width depends on the
terminal (`'-' * (shutil.get_terminal_size().columns - 11)`), which is
irrelevant to every claim, so a fixed width is used here. -/
def DASHES : String := "----------------------------------------"

/-- Result of one SOAP action call, as the script consumes it: a key/value
mapping (Python dict of strings). -/
abbrev SoapResult := List (String × String)

/-- Python `dict` lookup on a `SoapResult`; insertion is modelled by
prepending, so `List.lookup` returns the most recent binding. -/
def soapGet (r : SoapResult) (k : String) : Option String := r.lookup k

/-- Rendering of a whole result dict in a log line. -/
def reprSoap (r : SoapResult) : String :=
  "\x7b" ++ String.intercalate ", " (r.map fun p => p.1 ++ ": " ++ p.2) ++ "\x7d"

/-- Outcome of invoking one remote SOAP action on a device: a result
mapping, or a raised exception. -/
inductive CallOutcome where
  | ok (result : SoapResult)
  | raises (e : PyExc)

/-- A discovered Wemo device, as the script observes it: identity fields,
the service/action directory, and the (externally determined) outcomes of
its remote calls. -/
structure Device where
  /-- friendly name (`device.name`) -/
  name : String
  /-- `device._config.get_UDN()` -/
  udn : String
  /-- `device.host` -/
  host : String
  /-- `device.services`: service name to its action names, in directory order -/
  services : List (String × List String)
  /-- outcome of `device.services[s].actions[a]()` for an existing action -/
  call : String → String → CallOutcome
  /-- outcome of `device.reset(...)` -/
  resetResult : Except PyExc Unit
  /-- outcome of `device.setup(...)` -/
  setupResult : Except PyExc Unit

/-- `device.services[s].actions[a]()` via dict subscripts: a missing
service or action raises `KeyError`. -/
def invokeAction (d : Device) (service action : String) : CallOutcome :=
  match d.services.lookup service with
  | none => .raises .keyError
  | some acts => if acts.contains action then d.call service action else .raises .keyError

/-- `device.<Service>.<Action>()` via attribute access: a missing service
or action raises `AttributeError`. -/
def callService (d : Device) (service action : String) : CallOutcome :=
  match d.services.lookup service with
  | none => .raises .attributeError
  | some acts => if acts.contains action then d.call service action else .raises .attributeError

/-- `device.reset(data=..., wifi=...)` (lines 492 and 505): the outcome is
externally determined; the attempt and a success are recorded as events. -/
def Device.reset (d : Device) : Res Unit :=
  match d.resetResult with
  | .ok _ => .ok [.resetAttempt d.name, .resetOk d.name] ()
  | .error e => .err [.resetAttempt d.name] e

/-- `device.setup(ssid=..., password=...)` (lines 276 and 624). -/
def Device.setup (d : Device) : Res Unit :=
  match d.setupResult with
  | .ok _ => .ok [.setupAttempt d.name, .setupOk d.name] ()
  | .error e => .err [.setupAttempt d.name] e

/-!  The rename CSV parser, `wemo_rename` lines 388-404.  The CSV file is
taken as already split into rows of fields (the `csv.reader` output after
the header line `fin.readline()` was consumed). -/

/-- One pass of the row loop of `wemo_rename` (lines 392-404), threading
the two name maps.  A row is skipped when it is empty, has fewer than 3
fields, or its first (raw, unstripped) field starts with `#`; otherwise
`udn, ip, name = [i.strip() for i in row]` requires exactly 3 fields and
raises `ValueError` on more; a stripped-empty name skips the row; nonempty
stripped UDN/IP fields each record the name, later rows overriding
earlier ones (modelled by prepending, with `List.lookup` finding the most
recent binding first). -/
def parse_rename_rows :
    List (List String) → List (String × String) → List (String × String) →
    Except PyExc (List (String × String) × List (String × String))
  | [], udnMap, ipMap => .ok (udnMap, ipMap)
  | row :: rest, udnMap, ipMap =>
    if row.isEmpty || row.length < 3 || pyStartsWith (row.headD "") "#" then
      parse_rename_rows rest udnMap ipMap
    else if row.length ≠ 3 then
      .error (.valueError "too many values to unpack (expected 3)")
    else
      let stripped := row.map pyStrip
      let udn := stripped.headD ""
      let ip := (stripped.drop 1).headD ""
      let nm := (stripped.drop 2).headD ""
      if nm = "" then
        parse_rename_rows rest udnMap ipMap
      else
        parse_rename_rows rest
          (if udn ≠ "" then (udn, nm) :: udnMap else udnMap)
          (if ip ≠ "" then (ip, nm) :: ipMap else ipMap)

/-- Name chosen for one device in the rename loop (lines 408-412):
`name = ip_to_name.get(ip, ''); name = udn_to_name.get(udn, name)`, so the
UDN binding overrides the IP one. -/
def rename_choose_name (udnMap ipMap : List (String × String)) (udn ip : String) : String :=
  let nm := (ipMap.lookup ip).getD ""
  (udnMap.lookup udn).getD nm

/-!  The `list` workflow diagnostics, `log_details` lines 164-237. -/

/-- The verbosity-selected sequence of diagnostic calls
(`data_to_print`, lines 168-198): each item is (service, action,
result key or `None`).  At `verbose ≥ 2` every action whose lowercase
name starts with `get` on every exposed service is included, minus the
two slow scan actions when `verbose == 2`. -/
def data_to_print (d : Device) (verbose : Nat) : List (String × String × Option String) :=
  if verbose = 0 then
    [("basicevent", "GetFriendlyName", some "FriendlyName"),
     ("basicevent", "GetMacAddr", none),
     ("metainfo", "GetMetaInfo", some "MetaInfo")]
  else if verbose = 1 then
    [("basicevent", "GetFriendlyName", some "FriendlyName"),
     ("basicevent", "GetSignalStrength", some "SignalStrength"),
     ("basicevent", "GetMacAddr", none),
     ("firmwareupdate", "GetFirmwareVersion", some "FirmwareVersion"),
     ("metainfo", "GetMetaInfo", some "MetaInfo"),
     ("metainfo", "GetExtMetaInfo", some "ExtMetaInfo"),
     ("deviceinfo", "GetDeviceInformation", some "DeviceInformation")]
  else
    let skipActions : List String :=
      if verbose = 2 then ["getaplist", "getnetworklist"] else []
    d.services.flatMap fun sv =>
      (sv.2.filter fun a =>
        !(skipActions.contains (pyLower a)) && pyStartsWith (pyLower a) "get").map
        fun a => (sv.1, a, none)

/-- The diagnostic-call loop of `log_details` (lines 200-228), threading
the deferred `failed_calls` list.  A result whose `faultstring` field
lowercases to `upnperror` is appended to `failed_calls` and nothing is
printed; otherwise the requested key (or, on a missing key or a `None`
key, the whole result) is printed at info level.  A raised
`AttributeError`, `KeyError` or `TypeError` is downgraded to a warning
line (whose text keeps the script's stray `s` from
`f'Failed to get result for s{name}'`) and the loop continues; an
exception of any other class propagates. -/
def log_calls (d : Device) :
    List (String × String × Option String) → List (String × SoapResult) →
    Res (List (String × SoapResult))
  | [], failed => .ok [] failed
  | (service, action, key) :: rest, failed =>
    let nm := service ++ "." ++ action
    match invokeAction d service action with
    | .raises e =>
      if e = .attributeError || e = .keyError || e = .typeError then
        (Res.emit [.log .warning ("Failed to get result for s" ++ nm ++ ": " ++ reprExc e)]).bind
          fun _ => log_calls d rest failed
      else .err [] e
    | .ok result =>
      let isFault : Bool :=
        match soapGet result "faultstring" with
        | some v => pyLower v = "upnperror"
        | none => false
      if isFault then
        log_calls d rest (failed ++ [(nm, result)])
      else
        let nm2 := nm ++ "[" ++ key.getD "None" ++ "]"
        let line :=
          match key.bind (soapGet result) with
          | some v => Ev.log .info (nm2 ++ ": " ++ v)
          | none => Ev.log .info (nm2 ++ ": " ++ reprSoap result)
        (Res.emit [line]).bind fun _ => log_calls d rest failed

/-- The warning banner printed before the deferred failed calls
(lines 231-235). -/
def failBanner : String :=
  "The results below resulted in an error.  This may be due to the "
    ++ "action no longer working or that the method requires an argument."

/-- `log_details` (lines 164-237): run the verbosity-selected calls, then
print the deferred failed calls after a warning banner. -/
def log_details (d : Device) (verbose : Nat) : Res Unit :=
  (log_calls d (data_to_print d verbose) []).bind fun failed =>
    Res.emit
      ((if failed.isEmpty then [] else [Ev.log .warning failBanner]) ++
        failed.map fun p => Ev.log .info (p.1 ++ ": " ++ reprSoap p.2))

/-!  Discovery, `discover_and_log_devices` lines 280-305. -/

/-- `device.WiFiSetup.GetNetworkStatus()['NetworkStatus']` (line 289). -/
def getNetworkStatus (d : Device) : Res String :=
  match callService d "WiFiSetup" "GetNetworkStatus" with
  | .raises e => .err [] e
  | .ok r =>
    match soapGet r "NetworkStatus" with
    | some s => .ok [] s
    | none => .err [] .keyError

/-- The device loop of `discover_and_log_devices` (lines 287-297),
accumulating the `not_setup` list. -/
def dald_loop (only : Bool) (verbose : Nat) : List Device → List Device → Res (List Device)
  | [], notSetup => .ok [] notSetup
  | d :: rest, notSetup =>
    if only then
      (getNetworkStatus d).bind fun status =>
        if status ≠ "1" then
          (Res.emit [.log .info ("found device needing setup: " ++ d.name)]).bind fun _ =>
            dald_loop only verbose rest (notSetup ++ [d])
        else dald_loop only verbose rest notSetup
    else
      (Res.emit [.log .info DASHES, .log .info ("found device: " ++ d.name)]).bind fun _ =>
        (if verbose ≥ 0 then log_details d verbose else .ok [] ()).bind fun _ =>
          dald_loop only verbose rest notSetup

/-- `discover_and_log_devices` (lines 280-305); the devices the network
would yield are the input list.  In `only_needing_setup` mode the
function returns the not-set-up devices before the `found N devices`
line is ever logged; otherwise it logs `found N devices` and returns
all devices. -/
def discover_and_log_devices (devs : List Device) (only : Bool) (verbose : Nat) :
    Res (List Device) :=
  (dald_loop only verbose devs []).bind fun notSetup =>
    if only then .ok [] notSetup
    else
      (Res.emit ((if devs.isEmpty then [] else [Ev.log .info DASHES]) ++
          [Ev.log .info ("found " ++ toString devs.length ++ " devices")])).bind fun _ =>
        .ok [] devs

/-!  The `rename` command, `wemo_rename` lines 385-422. -/

/-- The per-device rename loop (lines 407-422). -/
def rename_loop (udnMap ipMap : List (String × String)) : List Device → Res Unit
  | [] => .ok [] ()
  | d :: rest =>
    let nm := rename_choose_name udnMap ipMap d.udn d.host
    if nm ≠ "" then
      (Res.emit [.log .info ("changing " ++ d.name ++ " name to: " ++ nm),
          .renameDone d.name nm]).bind fun _ =>
        rename_loop udnMap ipMap rest
    else
      (Res.emit [.log .info ("no name found for device " ++ d.name ++ " with UDN=\""
          ++ d.udn ++ "\" and IP=\"" ++ d.host ++ "\"")]).bind fun _ =>
        rename_loop udnMap ipMap rest

/-- The `rename` command body (lines 385-422): parse the mapping file
rows, discover, rename.  No exception is caught in this command. -/
def wemo_rename (rows : List (List String)) (devs : List Device) : Res Unit :=
  match parse_rename_rows rows [] [] with
  | .error e => .err [] e
  | .ok maps =>
    (discover_and_log_devices devs false 0).bind fun devices =>
      rename_loop maps.1 maps.2 devices

/-!  The access-point scanner, `find_wemo_aps` lines 96-160. -/

/-- Outcome of one `nmcli` subprocess invocation: the binary is missing
(`FileNotFoundError`), the tool exited non-zero
(`subprocess.CalledProcessError`, `check=True`), or it ran and produced
stdout. -/
inductive SubprocessOutcome where
  | toolMissing
  | nonzeroExit (stdout stderr : String)
  | okRun (stdout : String)

/-- Python `line.rsplit(':', 4)` destructured into exactly 5 parts
(line 135); `none` when fewer than 4 separators are present, in which
case the script's 5-variable unpacking raises `ValueError`. -/
def rsplit_colon_4 (line : String) :
    Option (String × String × String × String × String) :=
  let parts := pySplit line ':'
  if parts.length ≥ 5 then
    let n := parts.length
    some (String.intercalate ":" (parts.take (n - 4)),
      parts.getD (n - 4) "", parts.getD (n - 3) "",
      parts.getD (n - 2) "", parts.getD (n - 1) "")
  else none

/-- The line loop of `find_wemo_aps` (lines 130-158), accumulating the
wemo SSID list and the currently-connected SSID. -/
def scan_lines : List String → List String → String → Res (List String × String)
  | [], wemos, current => .ok [] (wemos, current)
  | line :: rest, wemos, current =>
    if pyStrip line = "" then scan_lines rest wemos current
    else
      match rsplit_colon_4 line with
      | none => .err [] (.valueError "not enough values to unpack (expected 5)")
      | some (ssid, inUse, channel, signal, security) =>
        let tCur : Trace :=
          if inUse = "*" then
            [.log .debug ("current network: " ++ ssid ++ " (channel=" ++ channel
              ++ ", signal=" ++ signal ++ ", security=" ++ security ++ ")")]
          else []
        let current2 :=
          if inUse = "*" then (if current ≠ "" then current else ssid) else current
        let isWemo := pyStartsWith (pyLower ssid) "wemo."
        let tWemo : Trace :=
          if isWemo then
            [.log .info ("expected wemo ap: " ++ ssid ++ " (channel=" ++ channel
              ++ ", signal=" ++ signal ++ ", security=" ++ security ++ ")")]
          else []
        (Res.emit (tCur ++ tWemo)).bind fun _ =>
          scan_lines rest (if isWemo then wemos ++ [ssid] else wemos) current2

/-- `find_wemo_aps` (lines 96-160).  A missing `nmcli` raises
`SetupException` with the NetworkManager message; a non-zero exit raises
`SetupException` with the bare message (the `stdout`/`stderr` log lines
in that handler are skipped because the unbound `networks` variable
raises `UnboundLocalError`, which the script swallows). -/
def find_wemo_aps (scan : SubprocessOutcome) : Res (List String × String) :=
  match scan with
  | .toolMissing =>
    .err [] (.setupException "nmcli command failed (NetworkManager must be installed)")
  | .nonzeroExit _ _ => .err [] (.setupException "nmcli command failed")
  | .okRun out =>
    let stdout := pyStrip out
    (Res.emit ([.log .debug ("result of nmcli device wifi:\nstdout:\n" ++ stdout)] ++
        (if stdout = "" then [Ev.log .warning "no result from nmcli, try again"] else []))).bind
      fun _ => scan_lines (pySplit stdout '\n') [] ""

/-!  The `setup` workflow, `connect_to_wemo_and_setup` lines 241-276 and
`click_wemo_setup` lines 549-628, and the `reset` workflow,
`click_wemo_reset` lines 460-510. -/

/-- External environment of one `setup` command run: the `nmcli` scan
outcome, the interactive answers, the per-AP `nmcli connect` outcomes,
the devices discovered after joining each AP, the reconnect outcome, and
the devices discovered in single-device mode.  The SSID and password
pushed to a device are opaque here because each device's setup outcome is
externally given. -/
structure SetupEnv where
  scanOutcome : SubprocessOutcome
  confirmAnswer : Bool
  getpassResult : String
  connectOutcome : String → SubprocessOutcome
  apDevices : String → List Device
  reconnectOutcome : SubprocessOutcome
  devices : List Device

/-- The per-device loop of `connect_to_wemo_and_setup` (lines 275-276):
set up each discovered not-set-up device; exceptions propagate. -/
def setup_devices_loop : List Device → Res Unit
  | [] => .ok [] ()
  | d :: rest => (d.setup).bind fun _ => setup_devices_loop rest

/-- `connect_to_wemo_and_setup` (lines 241-276): join the device AP via
`nmcli` (both failure modes raise `SetupException`), then discover the
devices needing setup on that AP and push credentials to each. -/
def connect_to_wemo_and_setup (env : SetupEnv) (wemossid : String) : Res Unit :=
  match env.connectOutcome wemossid with
  | .toolMissing =>
    .err [] (.setupException "nmcli command failed (NetworkManager must be installed)")
  | .nonzeroExit _ _ =>
    .err [] (.setupException
      ("nmcli command failed (network may not exist anymore or may no "
        ++ "longer be reachable)"))
  | .okRun out =>
    (Res.emit [.log .debug ("result of nmcli connect:\nstdout:\n" ++ pyStrip out),
        .log .info ("searching " ++ wemossid ++ " for wemo devices")]).bind fun _ =>
      (discover_and_log_devices (env.apDevices wemossid) true 0).bind fun devices =>
        setup_devices_loop devices

/-- Case-insensitive first-match selection by friendly name, as written
identically in `click_wemo_reset` (lines 498-502) and `click_wemo_setup`
(lines 617-621): `if device.name.lower() == name.lower(): ...; break`. -/
def select_by_name : List Device → String → Option Device
  | [], _ => none
  | d :: rest, target =>
    if pyLower d.name = pyLower target then some d else select_by_name rest target

/-- The per-AP loop of `click_wemo_setup` (lines 595-601): a
`SetupException` from one AP is logged and that AP is skipped; any other
exception propagates. -/
def ap_loop (env : SetupEnv) : List String → Res Unit
  | [] => .ok [] ()
  | ap :: rest =>
    (Res.emit [.log .info DASHES]).bind fun _ =>
      (match connect_to_wemo_and_setup env ap with
       | .ok t _ => Res.emit t
       | .err t (.setupException m) =>
         Res.emit (t ++ [Ev.log .error m, Ev.log .error ("|-- thus skipping: " ++ ap)])
       | .err t e => .err t e).bind fun _ =>
        ap_loop env rest

/-- The host-reconnect epilogue of `click_wemo_setup` (lines 604-615):
attempted only for a non-wemo original network; both `nmcli` failure
modes are swallowed by the bare `pass`. -/
def reconnect_host (env : SetupEnv) (current : String) : Res Unit :=
  if current ≠ "" && !(pyStartsWith (pyLower current) "wemo.") then
    (Res.emit [.log .info ("attempting to reconnect host to " ++ current)]).bind fun _ =>
      match env.reconnectOutcome with
      | .toolMissing => .ok [] ()
      | .nonzeroExit _ _ => .ok [] ()
      | .okRun _ => .ok [] ()
  else .ok [] ()

/-- The `try` body of `click_wemo_setup` (lines 572-626).  The script's
no-AP message contains an apostrophe in `AP's`; it is rendered here
without it. -/
def wemo_setup_body (env : SetupEnv) (password : String) (setup_all : Bool)
    (nameOpt : Option String) : Res Unit :=
  (Res.emit [.log .info DASHES,
      .log .info ("NOTE: If some or all devices fail to connect, try "
        ++ "re-running the same command a second time!"),
      .log .info DASHES]).bind fun _ =>
    if setup_all then
      (find_wemo_aps env.scanOutcome).bind fun aps =>
        if aps.1.isEmpty then
          .err [] (.setupException
            ("No valid Wemo device APs found.  Try running this "
              ++ "again, otherwise consider directly connecting to the "
              ++ "devices network and using the --name option."))
        else
          (Res.emit [.confirmPrompt ("Are you sure you want to setup all "
              ++ toString aps.1.length ++ " \"expected wemo\" devices listed above?")]).bind
            fun _ =>
            if env.confirmAnswer then
              (Res.emit ([Ev.log .info DASHES] ++
                  (if password = "" then [Ev.getpassPrompt] else []))).bind fun _ =>
                (ap_loop env aps.1).bind fun _ =>
                  (Res.emit [.log .info DASHES]).bind fun _ =>
                    reconnect_host env aps.2
            else .ok [] ()
    else
      match nameOpt with
      | some n =>
        (discover_and_log_devices env.devices false 0).bind fun devices =>
          (match select_by_name devices n with
           | none => .err [] (.setupException ("device named \"" ++ n ++ "\" not found"))
           | some d => d.setup)
      | none => .err [] (.setupException "--setup-all or --name=<str> is required")

/-- `click_wemo_setup` (lines 549-628): the command boundary catches
`SetupException` and logs it at critical level; everything else
propagates (the process would crash). -/
def click_wemo_setup (env : SetupEnv) (password : String) (setup_all : Bool)
    (nameOpt : Option String) : Res Unit :=
  match wemo_setup_body env password setup_all nameOpt with
  | .err t (.setupException m) => .ok (t ++ [.log .critical m]) ()
  | r => r

/-- The reset-all loop of `click_wemo_reset` (lines 489-495): a
`ResetException` from one device is logged (the exception text, then the
skip line) and that device is skipped; any other exception propagates. -/
def reset_all_loop : List Device → Res Unit
  | [] => .ok [] ()
  | d :: rest =>
    (Res.emit [.log .info DASHES]).bind fun _ =>
      (match d.reset with
       | .ok t _ => Res.emit t
       | .err t (.resetException m) =>
         Res.emit (t ++ [Ev.log .error m, Ev.log .error ("|-- thus skipping: " ++ d.name)])
       | .err t e => .err t e).bind fun _ =>
        reset_all_loop rest

/-- The `try` body of `click_wemo_reset` (lines 479-508), with `data` and
`wifi` already merged with `--full`.  The warning issued when `--name` is
combined with `--reset-all` keeps the script's literal un-interpolated
`%s` (the script passes no argument for it). -/
def wemo_reset_body (reset_all : Bool) (nameOpt : Option String)
    (devs : List Device) (confirmAnswer : Bool) : Res Unit :=
  (if reset_all then
    (discover_and_log_devices devs false 0).bind fun devices =>
      (Res.emit (match nameOpt with
        | some _ => [Ev.log .warning "name %s ignored, all discovered devices will be reset"]
        | none => [])).bind fun _ =>
        if devices.isEmpty then .ok [] ()
        else
          (Res.emit [.confirmPrompt ("Are you sure you want to reset all "
              ++ toString devices.length ++ " devices listed above?")]).bind fun _ =>
            if confirmAnswer then
              (reset_all_loop devices).bind fun _ => Res.emit [.log .info DASHES]
            else .ok [] ()
  else
    match nameOpt with
    | some n =>
      (discover_and_log_devices devs false 0).bind fun devices =>
        (match select_by_name devices n with
         | none => .err [] (.resetException ("device named \"" ++ n ++ "\" not found"))
         | some d => d.reset)
    | none => .err [] (.resetException "--reset-all or --name=<str> is required")).bind
    fun _ => Res.emit [.log .info "devices will take approximately 90 seconds to reset"]

/-- `click_wemo_reset` (lines 460-510): the command boundary catches
`ResetException` and logs it at critical level; everything else
propagates (the process would crash). -/
def click_wemo_reset (reset_all : Bool) (nameOpt : Option String)
    (devs : List Device) (confirmAnswer : Bool) : Res Unit :=
  match wemo_reset_body reset_all nameOpt devs confirmAnswer with
  | .err t (.resetException m) => .ok (t ++ [.log .critical m]) ()
  | r => r

/-- The `list` command `wemo_discover` (lines 357-360): plain discovery
at diagnostic verbosity `info + 1`; nothing is caught. -/
def wemo_discover (devs : List Device) (info : Nat) : Res Unit :=
  (discover_and_log_devices devs false (info + 1)).bind fun _ => .ok [] ()

/-!  Trace observables used by the theorems. -/

/-- Devices on which a reset was attempted, in order. -/
def resetAttempts (t : Trace) : List String :=
  t.filterMap fun e => match e with | .resetAttempt n => some n | _ => none

/-- Devices whose reset call returned successfully, in order. -/
def resetOks (t : Trace) : List String :=
  t.filterMap fun e => match e with | .resetOk n => some n | _ => none

/-- Devices on which a setup was attempted, in order. -/
def setupAttempts (t : Trace) : List String :=
  t.filterMap fun e => match e with | .setupAttempt n => some n | _ => none

/-- Confirmation prompts shown, in order. -/
def confirmPrompts (t : Trace) : List String :=
  t.filterMap fun e => match e with | .confirmPrompt m => some m | _ => none

/-- Rename actions performed, in order. -/
def renamesDone (t : Trace) : List (String × String) :=
  t.filterMap fun e => match e with | .renameDone d n => some (d, n) | _ => none

/-- True when the trace consists of log lines only (no prompt and no
device-affecting action). -/
def onlyLogs (t : Trace) : Bool :=
  t.all fun e => match e with | .log _ _ => true | _ => false

/-- True when some log line of the trace is exactly `m`. -/
def mentionsMsg (t : Trace) (m : String) : Bool :=
  t.any fun e => match e with | .log _ m2 => m2 = m | _ => false

/-- True when the device's reset call succeeds. -/
def resetSucceeds (d : Device) : Bool :=
  match d.resetResult with | .ok _ => true | .error _ => false

/-!  Helper lemmas. -/

/-- Trace of an emission followed by a continuation. -/
theorem Res.trace_emit_bind {β : Type} (T : Trace) (f : Unit → Res β) :
    ((Res.emit T).bind f).trace = T ++ (f ()).trace := by
  cases h : f () <;> simp [Res.emit, Res.bind, Res.trace, h]

/-- Claim C1: in the rename workflow a UDN-mapped name wins over any
IP-mapped name: whenever the device UDN is bound in the UDN map, the
chosen name is that binding (whatever the IP map holds), and the rename
performed on the device uses it. -/
theorem C1_rename_udn_precedence (udnMap ipMap : List (String × String))
    (udn ip nm : String) (h : udnMap.lookup udn = some nm) :
    rename_choose_name udnMap ipMap udn ip = nm ∧
    (nm ≠ "" → ∀ (d : Device) (rest : List Device), d.udn = udn → d.host = ip →
      renamesDone (rename_loop udnMap ipMap (d :: rest)).trace =
        (d.name, nm) :: renamesDone (rename_loop udnMap ipMap rest).trace) := by
  have hc : rename_choose_name udnMap ipMap udn ip = nm := by
    simp [rename_choose_name, h]
  refine ⟨hc, fun hnm d rest hu hi => ?_⟩
  simp only [rename_loop, hu, hi, hc]
  rw [if_pos hnm, Res.trace_emit_bind]
  simp [renamesDone]

/-- Concrete device for the C1 witness. -/
def dC1 : Device :=
  { name := "Old Name", udn := "uuid:Socket-1_0-SN001", host := "10.0.0.5",
    services := [], call := fun _ _ => .raises .attributeError,
    resetResult := .ok (), setupResult := .ok () }

/-- Witness for C1: device whose UDN maps to `Porch Light` while its IP
maps to `Kitchen Light` gets renamed to `Porch Light`. -/
theorem C1_rename_udn_precedence_witness :
    rename_choose_name [("uuid:Socket-1_0-SN001", "Porch Light")]
      [("10.0.0.5", "Kitchen Light")] "uuid:Socket-1_0-SN001" "10.0.0.5" = "Porch Light" ∧
    renamesDone (rename_loop [("uuid:Socket-1_0-SN001", "Porch Light")]
      [("10.0.0.5", "Kitchen Light")] [dC1]).trace = [("Old Name", "Porch Light")] := by
  have h := C1_rename_udn_precedence [("uuid:Socket-1_0-SN001", "Porch Light")]
    [("10.0.0.5", "Kitchen Light")] "uuid:Socket-1_0-SN001" "10.0.0.5" "Porch Light" (by decide)
  exact ⟨h.1, by simpa using h.2 (by decide) dC1 [] rfl rfl⟩

/-- Claim C4: the rename-file row rules: an empty-UDN row with IP and
name populates only the IP map; an empty or whitespace-only name drops
the row; a first field starting with `#` drops the row whatever the
other fields hold; a row with fewer than 3 fields drops the row. -/
theorem C4_rename_row_rules :
    (∀ (ip nm : String) (rest : List (List String))
        (udnMap ipMap : List (String × String)),
        pyStrip ip ≠ "" → pyStrip nm ≠ "" →
        parse_rename_rows (["", ip, nm] :: rest) udnMap ipMap =
          parse_rename_rows rest udnMap ((pyStrip ip, pyStrip nm) :: ipMap)) ∧
    (∀ (u i nm : String) (rest : List (List String))
        (udnMap ipMap : List (String × String)),
        pyStrip nm = "" →
        parse_rename_rows ([u, i, nm] :: rest) udnMap ipMap =
          parse_rename_rows rest udnMap ipMap) ∧
    (∀ (f : String) (fs : List String) (rest : List (List String))
        (udnMap ipMap : List (String × String)),
        pyStartsWith f "#" = true →
        parse_rename_rows ((f :: fs) :: rest) udnMap ipMap =
          parse_rename_rows rest udnMap ipMap) ∧
    (∀ (row : List String) (rest : List (List String))
        (udnMap ipMap : List (String × String)),
        row.length < 3 →
        parse_rename_rows (row :: rest) udnMap ipMap =
          parse_rename_rows rest udnMap ipMap) := by
  refine ⟨?_, ?_, ?_, ?_⟩
  · intro ip nm rest udnMap ipMap hip hnm
    have h1 : pyStartsWith "" "#" = false := by decide
    have h2 : pyStrip "" = "" := rfl
    simp [parse_rename_rows, h1, h2, hip, hnm]
  · intro u i nm rest udnMap ipMap hnm
    by_cases hc : pyStartsWith u "#" = true
    · simp [parse_rename_rows, hc]
    · simp at hc
      simp [parse_rename_rows, hc, hnm]
  · intro f fs rest udnMap ipMap hc
    simp [parse_rename_rows, hc]
  · intro row rest udnMap ipMap hlen
    simp [parse_rename_rows, hlen]

/-- Witness for C4: the four row rules at concrete rows. -/
theorem C4_rename_row_rules_witness :
    parse_rename_rows [["", "10.0.0.5", "Kitchen Light"]] [] [] =
      .ok ([], [("10.0.0.5", "Kitchen Light")]) ∧
    parse_rename_rows [["uuid:X", "10.0.0.6", "   "]] [] [] = .ok ([], []) ∧
    parse_rename_rows [["# comment", "10.0.0.7", "Some Name"]] [] [] = .ok ([], []) ∧
    parse_rename_rows [["uuid:Y", "10.0.0.8"]] [] [] = .ok ([], []) := by
  refine ⟨?_, ?_, ?_, ?_⟩
  · exact (C4_rename_row_rules.1 "10.0.0.5" "Kitchen Light" [] [] []
      (by decide) (by decide)).trans (by rfl)
  · exact (C4_rename_row_rules.2.1 "uuid:X" "10.0.0.6" "   " [] [] [] (by decide)).trans rfl
  · exact (C4_rename_row_rules.2.2.1 "# comment" ["10.0.0.7", "Some Name"] [] [] []
      (by decide)).trans rfl
  · exact (C4_rename_row_rules.2.2.2 ["uuid:Y", "10.0.0.8"] [] [] [] (by decide)).trans rfl

/-- Claim C10: a row with more than 3 fields that triggers neither the
comment skip nor the short-row skip makes the 3-variable unpacking raise
`ValueError`, and this aborts the whole rename command. -/
theorem C10_rename_long_row_unpack_error :
    (∀ (f : String) (fs : List String) (rest : List (List String))
        (udnMap ipMap : List (String × String)),
        (f :: fs).length > 3 → pyStartsWith f "#" = false →
        parse_rename_rows ((f :: fs) :: rest) udnMap ipMap =
          .error (.valueError "too many values to unpack (expected 3)")) ∧
    (∀ devs : List Device,
        wemo_rename [["uuid:Z", "10.0.0.9", "Lamp", "extra-field"]] devs =
          .err [] (.valueError "too many values to unpack (expected 3)")) := by
  constructor
  · intro f fs rest udnMap ipMap hlen hc
    simp only [List.length_cons] at hlen
    have h3 : ¬ (fs.length + 1 < 3) := by omega
    have h2 : fs.length ≠ 2 := by omega
    simp [parse_rename_rows, h3, hc, h2]
  · intro devs
    rfl

/-- Witness for C10: the parser-level rule at a concrete 4-field row. -/
theorem C10_rename_long_row_unpack_error_witness :
    parse_rename_rows [["uuid:Z", "10.0.0.9", "Lamp", "extra-field"]] [] [] =
      .error (.valueError "too many values to unpack (expected 3)") := by
  exact C10_rename_long_row_unpack_error.1 "uuid:Z" ["10.0.0.9", "Lamp", "extra-field"]
    [] [] [] (by decide) (by decide)

/-- The value a computation returned, if it did not raise. -/
def Res.value? {α : Type} : Res α → Option α
  | .ok _ a => some a
  | .err _ _ => none

/-- An emission does not change the returned value. -/
theorem Res.value_emit_bind {β : Type} (T : Trace) (f : Unit → Res β) :
    ((Res.emit T).bind f).value? = (f ()).value? := by
  cases h : f () <;> simp [Res.emit, Res.bind, Res.value?, h]

/-- The SSID field a parsed `nmcli` line yields (first component of the
5-way rsplit). -/
def line_ssid (l : String) : Option String := (rsplit_colon_4 l).map fun p => p.1

/-- The SSIDs listed by a successful `nmcli device wifi` run: one per
non-blank stdout line. -/
def listed_ssids (stdout : String) : List String :=
  ((pySplit (pyStrip stdout) '\n').filter fun l => pyStrip l ≠ "").filterMap line_ssid

/-- The scan loop keeps exactly the SSIDs whose lowercase form starts
with `wemo.`, in listing order. -/
theorem scan_lines_wemos (lines : List String)
    (hwf : ∀ l ∈ lines, pyStrip l ≠ "" → (rsplit_colon_4 l).isSome = true) :
    ∀ (wemos : List String) (current : String),
      ((scan_lines lines wemos current).value?).map Prod.fst =
        some (wemos ++ (((lines.filter fun l => pyStrip l ≠ "").filterMap line_ssid).filter
          fun s => pyStartsWith (pyLower s) "wemo.")) := by
  induction lines with
  | nil => intro wemos current; simp [scan_lines, Res.value?]
  | cons l rest ih =>
    intro wemos current
    have hwf' : ∀ x ∈ rest, pyStrip x ≠ "" → (rsplit_colon_4 x).isSome = true :=
      fun x hx => hwf x (List.mem_cons_of_mem _ hx)
    by_cases hb : pyStrip l = ""
    · rw [show scan_lines (l :: rest) wemos current = scan_lines rest wemos current by
        simp [scan_lines, hb]]
      rw [ih hwf' wemos current]
      simp [List.filter_cons, hb]
    · have hsome := hwf l (List.mem_cons_self _ _) hb
      rw [Option.isSome_iff_exists] at hsome
      obtain ⟨p, hp⟩ := hsome
      obtain ⟨ssid, inUse, channel, signal, security⟩ := p
      have hl : line_ssid l = some ssid := by simp [line_ssid, hp]
      by_cases hw : pyStartsWith (pyLower ssid) "wemo." = true <;>
        simp [scan_lines, hb, hp, hw, hl, Res.value_emit_bind, ih hwf', List.filter_cons]

/-- Claim C7: in the setup-all access-point scan, an SSID is selected as
a candidate Wemo AP if and only if its lowercase form starts with the
vendor string `wemo.` (case-insensitive anchored match); the selected
list is exactly the listed SSIDs filtered by that test, in order. -/
theorem C7_ap_vendor_filter (out : String)
    (hwf : ∀ l ∈ pySplit (pyStrip out) '\n',
      pyStrip l ≠ "" → (rsplit_colon_4 l).isSome = true) :
    ((find_wemo_aps (.okRun out)).value?).map Prod.fst =
      some ((listed_ssids out).filter fun s => pyStartsWith (pyLower s) "wemo.") ∧
    ∀ (t : Trace) (wemos : List String) (cur : String),
      find_wemo_aps (.okRun out) = .ok t (wemos, cur) →
      ∀ s, s ∈ wemos ↔ (s ∈ listed_ssids out ∧ pyStartsWith (pyLower s) "wemo." = true) := by
  have h1 : ((find_wemo_aps (.okRun out)).value?).map Prod.fst =
      some ((listed_ssids out).filter fun s => pyStartsWith (pyLower s) "wemo.") := by
    simp only [find_wemo_aps, Res.value_emit_bind]
    rw [scan_lines_wemos _ hwf]
    simp [listed_ssids]
  refine ⟨h1, fun t wemos cur heq s => ?_⟩
  rw [heq] at h1
  simp only [Res.value?, Option.map_some] at h1
  obtain rfl : wemos = (listed_ssids out).filter fun s => pyStartsWith (pyLower s) "wemo." :=
    Option.some.inj h1
  simp [List.mem_filter]

/-- Stdout of the scan in the C7 witness (three networks). -/
def outC7 : String :=
  "wemo.livingroom:*:1:50:WPA2\nWEMO.KITCHEN::6:60:WPA2\nmywemodevice::11:70:WPA2"

/-- Witness for C7: `wemo.livingroom` and `WEMO.KITCHEN` are selected,
`mywemodevice` is not. -/
theorem C7_ap_vendor_filter_witness :
    (∀ l ∈ pySplit (pyStrip outC7) '\n',
      pyStrip l ≠ "" → (rsplit_colon_4 l).isSome = true) ∧
    ((find_wemo_aps (.okRun outC7)).value?).map Prod.fst =
      some ["wemo.livingroom", "WEMO.KITCHEN"] := by
  refine ⟨by decide, ?_⟩
  rw [(C7_ap_vendor_filter outC7 (by decide)).1]
  decide

/-- Case-insensitive friendly-name equality, the selection predicate of
the single-device modes. -/
def nameMatches (target : String) (d : Device) : Bool :=
  pyLower d.name = pyLower target

/-- Claim C8: single-device selection returns the first device in
discovery order whose friendly name matches the target case-insensitively
(every earlier device does not match), and the result for a matching head
is independent of the devices after it (they are not examined). -/
theorem C8_select_first_case_insensitive :
    (∀ (devs : List Device) (target : String) (d : Device),
        select_by_name devs target = some d →
        ∃ (i : Nat) (h : i < devs.length),
          devs.get ⟨i, h⟩ = d ∧ nameMatches target d = true ∧
          ∀ (j : Nat) (hj : j < i),
            nameMatches target (devs.get ⟨j, Nat.lt_trans hj h⟩) = false) ∧
    (∀ (d : Device) (rest rest2 : List Device) (target : String),
        nameMatches target d = true →
        select_by_name (d :: rest) target = some d ∧
        select_by_name (d :: rest) target = select_by_name (d :: rest2) target) := by
  constructor
  · intro devs
    induction devs with
    | nil => intro target d h; simp [select_by_name] at h
    | cons d0 rest ih =>
      intro target d h
      by_cases hm : pyLower d0.name = pyLower target
      · rw [select_by_name, if_pos hm] at h
        obtain rfl : d0 = d := Option.some.inj h
        exact ⟨0, by simp, rfl, by simp [nameMatches, hm],
          fun j hj => absurd hj (Nat.not_lt_zero j)⟩
      · rw [select_by_name, if_neg hm] at h
        obtain ⟨i, hi, hget, hmatch, hbefore⟩ := ih target d h
        refine ⟨i + 1, by simpa using Nat.succ_lt_succ hi, by simpa using hget, hmatch, ?_⟩
        intro j hj
        cases j with
        | zero => simpa [nameMatches] using hm
        | succ j' => simpa using hbefore j' (Nat.lt_of_succ_lt_succ hj)
  · intro d rest rest2 target hm
    have hm' : pyLower d.name = pyLower target := by simpa [nameMatches] using hm
    constructor <;> simp [select_by_name, hm']

/-- A bare device with only a friendly name, for witnesses. -/
def mkDevice (nm : String) : Device :=
  { name := nm, udn := "", host := "", services := [],
    call := fun _ _ => .raises .attributeError,
    resetResult := .ok (), setupResult := .ok () }

/-- Witness for C8: among devices `Lamp` and `lamp2`, the target `LAMP`
selects the first only. -/
theorem C8_select_first_case_insensitive_witness :
    select_by_name [mkDevice "Lamp", mkDevice "lamp2"] "LAMP" = some (mkDevice "Lamp") ∧
    nameMatches "LAMP" (mkDevice "lamp2") = false := by
  exact ⟨(C8_select_first_case_insensitive.2 (mkDevice "Lamp") [mkDevice "lamp2"] [] "LAMP"
    (by decide)).1, by decide⟩

/-- Claim C9 (counterexample): the two scanner failure modes raise
exceptions of one and the same class, `SetupException` — the missing-tool
case at the concrete input `toolMissing` and the non-zero-exit case at
the concrete input `nonzeroExit "out" "err"` — so the code has no
distinct `ScannerUnavailable` versus `ScanError` conditions that a
caller's exception handler could tell apart. -/
theorem C9_counterexample_same_exception_class :
    find_wemo_aps .toolMissing =
      .err [] (.setupException "nmcli command failed (NetworkManager must be installed)") ∧
    find_wemo_aps (.nonzeroExit "out" "err") =
      .err [] (.setupException "nmcli command failed") ∧
    pyExcClass (.setupException "nmcli command failed (NetworkManager must be installed)") =
      pyExcClass (.setupException "nmcli command failed") :=
  ⟨rfl, rfl, rfl⟩

/-- Claim C9 (amended): both scanner failures raise the setup-phase
exception class; the two kinds are distinguishable only by their
messages, which differ. -/
theorem C9_scan_failures_distinct_messages_only : ∀ so se : String,
    (find_wemo_aps .toolMissing).errExc =
      some (.setupException "nmcli command failed (NetworkManager must be installed)") ∧
    (find_wemo_aps (.nonzeroExit so se)).errExc =
      some (.setupException "nmcli command failed") ∧
    ("nmcli command failed (NetworkManager must be installed)" : String) ≠
      "nmcli command failed" ∧
    pyExcClass (.setupException "nmcli command failed (NetworkManager must be installed)") =
      pyExcClass (.setupException "nmcli command failed") := by
  intro so se
  exact ⟨rfl, rfl, by decide, rfl⟩

/-- Device whose first diagnostic call raises an exception class outside
the caught set (a pywemo `ActionException`, e.g. on repeated
communication failure). -/
def dC6 : Device :=
  { name := "Mini", udn := "uuid:Mini-1", host := "10.0.0.7",
    services := [("basicevent", ["GetFriendlyName", "GetMacAddr"]),
      ("metainfo", ["GetMetaInfo"])],
    call := fun s a =>
      if s = "basicevent" && a = "GetFriendlyName" then
        .raises (.otherError "ActionException: communication failure")
      else .ok [("MacAddr", "001122334455")],
    resetResult := .ok (), setupResult := .ok () }

/-- Claim C6 (counterexample): a thrown error during a diagnostic call is
not always downgraded to a warning: at the concrete device `dC6`, whose
`basicevent.GetFriendlyName` call raises an exception class outside
`(AttributeError, KeyError, TypeError)`, the whole listing aborts with
that exception before any warning line or any further action. -/
theorem C6_counterexample_uncaught_call_error :
    log_details dC6 0 = .err [] (.otherError "ActionException: communication failure") ∧
    (log_details dC6 0).trace = [] := by
  constructor <;> rfl

/-- Claim C6 (amended): a diagnostic result whose `faultstring` field
lowercases to `upnperror` is deferred to the end-of-report failed-calls
section and produces no success output; a thrown `AttributeError`,
`KeyError` or `TypeError` is downgraded to one warning line and the loop
continues with the remaining actions; the deferred calls are printed in a
dedicated section after the banner. -/
theorem C6_diag_fault_deferral_and_caught_errors :
    (∀ (d : Device) (service action : String) (key : Option String)
        (rest : List (String × String × Option String))
        (failed : List (String × SoapResult)) (e : PyExc),
        invokeAction d service action = .raises e →
        (e = .attributeError ∨ e = .keyError ∨ e = .typeError) →
        log_calls d ((service, action, key) :: rest) failed =
          (Res.emit [Ev.log .warning ("Failed to get result for s"
            ++ (service ++ "." ++ action) ++ ": " ++ reprExc e)]).bind
            (fun _ => log_calls d rest failed)) ∧
    (∀ (d : Device) (service action : String) (key : Option String)
        (rest : List (String × String × Option String))
        (failed : List (String × SoapResult)) (r : SoapResult) (v : String),
        invokeAction d service action = .ok r →
        soapGet r "faultstring" = some v → pyLower v = "upnperror" →
        log_calls d ((service, action, key) :: rest) failed =
          log_calls d rest (failed ++ [(service ++ "." ++ action, r)])) ∧
    (∀ (d : Device) (verbose : Nat) (t : Trace) (failed : List (String × SoapResult)),
        log_calls d (data_to_print d verbose) [] = .ok t failed → failed ≠ [] →
        log_details d verbose =
          .ok (t ++ [Ev.log .warning failBanner] ++
            failed.map fun p => Ev.log .info (p.1 ++ ": " ++ reprSoap p.2)) ()) := by
  refine ⟨?_, ?_, ?_⟩
  · intro d service action key rest failed e he hkind
    rcases hkind with rfl | rfl | rfl <;> simp [log_calls, he]
  · intro d service action key rest failed r v hok hf hl
    simp [log_calls, hok, hf, hl]
  · intro d verbose t failed hok hne
    simp only [log_details, hok, Res.bind, Res.emit]
    simp [hne]

/-- Device for the C6 witness: its one get-action reports a UPnP fault. -/
def dC6w : Device :=
  { name := "Bridge", udn := "uuid:Bridge-1", host := "10.0.0.8",
    services := [("svc", ["GetBroken"])],
    call := fun _ _ => .ok [("faultstring", "UPnPError"), ("errorCode", "401")],
    resetResult := .ok (), setupResult := .ok () }

/-- Witness for the amended C6: a missing service raises `KeyError` and
is downgraded to a warning with the loop continuing; a faulting result is
deferred; the deferred call is printed after the banner. -/
theorem C6_diag_fault_deferral_witness :
    log_calls dC6w [("nosvc", "GetX", none)] [] =
      (Res.emit [Ev.log .warning ("Failed to get result for s"
        ++ ("nosvc" ++ "." ++ "GetX") ++ ": " ++ reprExc PyExc.keyError)]).bind
        (fun _ => log_calls dC6w [] []) ∧
    log_calls dC6w [("svc", "GetBroken", none)] [] =
      log_calls dC6w []
        [("svc" ++ "." ++ "GetBroken", [("faultstring", "UPnPError"), ("errorCode", "401")])] ∧
    log_details dC6w 3 =
      .ok ([] ++ [Ev.log .warning failBanner] ++
        ([("svc" ++ "." ++ "GetBroken",
            ([("faultstring", "UPnPError"), ("errorCode", "401")] : SoapResult))].map
          fun p => Ev.log .info (p.1 ++ ": " ++ reprSoap p.2))) () := by
  refine ⟨?_, ?_, ?_⟩
  · exact C6_diag_fault_deferral_and_caught_errors.1 dC6w "nosvc" "GetX" none [] []
      PyExc.keyError rfl (Or.inr (Or.inl rfl))
  · exact C6_diag_fault_deferral_and_caught_errors.2.1 dC6w "svc" "GetBroken" none [] []
      [("faultstring", "UPnPError"), ("errorCode", "401")] "UPnPError" rfl rfl (by decide)
  · exact C6_diag_fault_deferral_and_caught_errors.2.2 dC6w 3 []
      [("svc" ++ "." ++ "GetBroken", [("faultstring", "UPnPError"), ("errorCode", "401")])]
      (by rfl) (by simp)

/-- `onlyLogs` on an empty trace. -/
theorem onlyLogs_nil : onlyLogs [] = true := rfl

/-- A log line preserves `onlyLogs`. -/
theorem onlyLogs_cons_log (lv : Level) (m : String) (t : Trace) :
    onlyLogs (Ev.log lv m :: t) = onlyLogs t := by
  simp [onlyLogs]

/-- `onlyLogs` distributes over concatenation. -/
theorem onlyLogs_append (a b : Trace) :
    onlyLogs (a ++ b) = (onlyLogs a && onlyLogs b) := by
  simp [onlyLogs]

/-- Sequencing preserves `onlyLogs` of the emitted trace. -/
theorem onlyLogs_bind {α β : Type} (x : Res α) (f : α → Res β)
    (hx : onlyLogs x.trace = true) (hf : ∀ a, onlyLogs (f a).trace = true) :
    onlyLogs (x.bind f).trace = true := by
  cases x with
  | err t e => simpa [Res.bind, Res.trace] using hx
  | ok t a =>
    have hfa := hf a
    cases h : f a with
    | ok t2 b =>
      rw [h] at hfa
      simp only [Res.trace] at hx hfa
      simp [Res.bind, h, Res.trace, onlyLogs_append, hx, hfa]
    | err t2 e =>
      rw [h] at hfa
      simp only [Res.trace] at hx hfa
      simp [Res.bind, h, Res.trace, onlyLogs_append, hx, hfa]

/-- The end-of-report failed-call lines are log lines. -/
theorem onlyLogs_map_info (l : List (String × SoapResult)) :
    onlyLogs (l.map fun p => Ev.log .info (p.1 ++ ": " ++ reprSoap p.2)) = true := by
  induction l with
  | nil => rfl
  | cons p rest ih => simpa [onlyLogs_cons_log] using ih

/-- The diagnostic-call loop emits log lines only. -/
theorem onlyLogs_log_calls (d : Device) :
    ∀ (entries : List (String × String × Option String))
      (failed : List (String × SoapResult)),
      onlyLogs (log_calls d entries failed).trace = true := by
  intro entries
  induction entries with
  | nil => intro failed; rfl
  | cons ent rest ih =>
    intro failed
    obtain ⟨service, action, key⟩ := ent
    cases hc : invokeAction d service action with
    | raises e =>
      by_cases hk : (e = PyExc.attributeError || e = PyExc.keyError || e = PyExc.typeError) = true
      · simp [log_calls, hc, hk, Res.trace_emit_bind, onlyLogs_append, onlyLogs_cons_log,
          onlyLogs_nil, ih]
      · simp only [Bool.not_eq_true] at hk
        simp [log_calls, hc, hk, Res.trace, onlyLogs_nil]
    | ok r =>
      rcases hf : soapGet r "faultstring" with _ | v
      · rcases hkk : key.bind (soapGet r) with _ | v2 <;>
          simp [log_calls, hc, hf, hkk, Res.trace_emit_bind, onlyLogs_append,
            onlyLogs_cons_log, onlyLogs_nil, ih]
      · by_cases hfl : pyLower v = "upnperror"
        · simp [log_calls, hc, hf, hfl, ih]
        · rcases hkk : key.bind (soapGet r) with _ | v2 <;>
            simp [log_calls, hc, hf, hfl, hkk, Res.trace_emit_bind, onlyLogs_append,
              onlyLogs_cons_log, onlyLogs_nil, ih]

/-- Per-device diagnostics emit log lines only. -/
theorem onlyLogs_log_details (d : Device) (verbose : Nat) :
    onlyLogs (log_details d verbose).trace = true := by
  refine onlyLogs_bind _ _ (onlyLogs_log_calls d _ []) fun failed => ?_
  by_cases h : failed.isEmpty <;>
    simp [Res.emit, Res.trace, h, onlyLogs_append, onlyLogs_cons_log, onlyLogs_nil,
      onlyLogs_map_info]

/-- `getNetworkStatus` emits nothing. -/
theorem getNetworkStatus_trace (d : Device) : (getNetworkStatus d).trace = [] := by
  rcases h : callService d "WiFiSetup" "GetNetworkStatus" with r | e
  · rcases h2 : soapGet r "NetworkStatus" with _ | s <;>
      simp [getNetworkStatus, h, h2, Res.trace]
  · simp [getNetworkStatus, h, Res.trace]

/-- The trace of an emission is what was emitted. -/
theorem Res.trace_emit (T : Trace) : (Res.emit T).trace = T := rfl

/-- The discovery loop emits log lines only. -/
theorem onlyLogs_dald_loop (only : Bool) (verbose : Nat) :
    ∀ (devs acc : List Device), onlyLogs (dald_loop only verbose devs acc).trace = true := by
  intro devs
  induction devs with
  | nil => intro acc; rfl
  | cons d rest ih =>
    intro acc
    cases only with
    | true =>
      simp only [dald_loop, if_true]
      refine onlyLogs_bind _ _ ?_ fun status => ?_
      · rw [getNetworkStatus_trace]; rfl
      · by_cases hs : status ≠ "1"
        · rw [if_pos hs]
          exact onlyLogs_bind _ _ (by rw [Res.trace_emit, onlyLogs_cons_log]; rfl)
            fun _ => ih _
        · rw [if_neg hs]
          exact ih _
    | false =>
      simp only [dald_loop, if_false, Bool.false_eq_true]
      refine onlyLogs_bind _ _
        (by rw [Res.trace_emit, onlyLogs_cons_log, onlyLogs_cons_log]; rfl) fun _ => ?_
      refine onlyLogs_bind _ _ ?_ fun _ => ih _
      rw [if_pos (Nat.zero_le verbose)]
      exact onlyLogs_log_details d verbose

/-- Non-setup-mode discovery that returns normally returns the input
device list, emitting log lines only. -/
theorem discover_ok_shape (devs : List Device) (verbose : Nat)
    (h : (discover_and_log_devices devs false verbose).isOk = true) :
    ∃ t, discover_and_log_devices devs false verbose = .ok t devs ∧ onlyLogs t = true := by
  rcases hd : dald_loop false verbose devs [] with ⟨t0, acc⟩ | ⟨t0, e⟩
  · have hlog : onlyLogs t0 = true := by
      have := onlyLogs_dald_loop false verbose devs []
      rw [hd] at this
      simpa [Res.trace] using this
    refine ⟨t0 ++ ((if devs.isEmpty then [] else [Ev.log .info DASHES]) ++
      [Ev.log .info ("found " ++ toString devs.length ++ " devices")]), ?_, ?_⟩
    · simp [discover_and_log_devices, hd, Res.bind, Res.emit]
    · by_cases he : devs.isEmpty <;>
        simp [he, onlyLogs_append, onlyLogs_cons_log, onlyLogs_nil, hlog]
  · exfalso
    rw [show discover_and_log_devices devs false verbose = .err t0 e by
      simp [discover_and_log_devices, hd, Res.bind]] at h
    simp [Res.isOk] at h

/-- A pure-log trace contributes no prompts and no device actions. -/
theorem onlyLogs_no_events (t : Trace) (h : onlyLogs t = true) :
    resetAttempts t = [] ∧ resetOks t = [] ∧ setupAttempts t = [] ∧
    confirmPrompts t = [] ∧ renamesDone t = [] := by
  induction t with
  | nil => simp [resetAttempts, resetOks, setupAttempts, confirmPrompts, renamesDone]
  | cons e rest ih =>
    cases e with
    | log lv m =>
      rw [onlyLogs_cons_log] at h
      simpa [resetAttempts, resetOks, setupAttempts, confirmPrompts, renamesDone]
        using ih h
    | confirmPrompt m => simp [onlyLogs] at h
    | getpassPrompt => simp [onlyLogs] at h
    | resetAttempt n => simp [onlyLogs] at h
    | resetOk n => simp [onlyLogs] at h
    | renameDone a b => simp [onlyLogs] at h
    | setupAttempt n => simp [onlyLogs] at h
    | setupOk n => simp [onlyLogs] at h

/-- Splitting a list by a predicate preserves its length. -/
theorem length_filter_not_add (p : Device → Bool) (l : List Device) :
    (l.filter p).length + (l.filter fun d => !(p d)).length = l.length := by
  induction l with
  | nil => rfl
  | cons d rest ih =>
    by_cases h : p d = true
    · simp only [List.filter_cons, h]
      simp
      omega
    · simp only [Bool.not_eq_true] at h
      simp only [List.filter_cons, h]
      simp
      omega

/-- The reset-all loop attempts every device in order, resets exactly the
devices whose reset call succeeds, logs-and-skips the ones raising
`ResetException`, and never raises itself. -/
theorem reset_all_loop_spec :
    ∀ devs : List Device,
      (∀ d ∈ devs, d.resetResult = .ok () ∨
        ∃ m, d.resetResult = .error (.resetException m)) →
      ∃ t, reset_all_loop devs = .ok t () ∧
        resetAttempts t = devs.map Device.name ∧
        resetOks t = (devs.filter resetSucceeds).map Device.name ∧
        confirmPrompts t = [] := by
  intro devs
  induction devs with
  | nil => intro h; exact ⟨[], rfl, rfl, rfl, rfl⟩
  | cons d rest ih =>
    intro h
    obtain ⟨t, hok, ha, hs, hc⟩ := ih fun x hx => h x (List.mem_cons_of_mem _ hx)
    rcases h d (List.mem_cons_self _ _) with hd | ⟨m, hd⟩
    · refine ⟨[Ev.log .info DASHES, Ev.resetAttempt d.name, Ev.resetOk d.name] ++ t,
        ?_, ?_, ?_, ?_⟩
      · simp only [reset_all_loop, Device.reset, hd]
        simp [Res.bind, Res.emit, hok]
      · simp [resetAttempts, List.filterMap_append] at ha ⊢
        exact ha
      · have hsd : resetSucceeds d = true := by simp [resetSucceeds, hd]
        simp [resetOks, List.filterMap_append, List.filter_cons, hsd] at hs ⊢
        exact hs
      · simp [confirmPrompts, List.filterMap_append] at hc ⊢
        exact hc
    · refine ⟨[Ev.log .info DASHES, Ev.resetAttempt d.name, Ev.log .error m,
        Ev.log .error ("|-- thus skipping: " ++ d.name)] ++ t, ?_, ?_, ?_, ?_⟩
      · simp only [reset_all_loop, Device.reset, hd]
        simp [Res.bind, Res.emit, hok]
      · simp [resetAttempts, List.filterMap_append] at ha ⊢
        exact ha
      · have hsd : resetSucceeds d = false := by simp [resetSucceeds, hd]
        simp [resetOks, List.filterMap_append, List.filter_cons, hsd] at hs ⊢
        exact hs
      · simp [confirmPrompts, List.filterMap_append] at hc ⊢
        exact hc

/-- `resetAttempts` distributes over concatenation. -/
theorem resetAttempts_append (a b : Trace) :
    resetAttempts (a ++ b) = resetAttempts a ++ resetAttempts b :=
  List.filterMap_append a b _

/-- `resetOks` distributes over concatenation. -/
theorem resetOks_append (a b : Trace) :
    resetOks (a ++ b) = resetOks a ++ resetOks b :=
  List.filterMap_append a b _

/-- `setupAttempts` distributes over concatenation. -/
theorem setupAttempts_append (a b : Trace) :
    setupAttempts (a ++ b) = setupAttempts a ++ setupAttempts b :=
  List.filterMap_append a b _

/-- `confirmPrompts` distributes over concatenation. -/
theorem confirmPrompts_append (a b : Trace) :
    confirmPrompts (a ++ b) = confirmPrompts a ++ confirmPrompts b :=
  List.filterMap_append a b _

/-- Claim C2: in confirmed reset-all mode, the reset is attempted on
every discovered device in order; each device whose reset raises
`ResetException` is logged and skipped; exactly the non-failing devices
are reset (N minus M of them); and the command returns normally. -/
theorem C2_reset_all_resilience (nameOpt : Option String) (devs : List Device)
    (hdisc : (discover_and_log_devices devs false 0).isOk = true)
    (hout : ∀ d ∈ devs, d.resetResult = .ok () ∨
      ∃ m, d.resetResult = .error (.resetException m)) :
    ∃ t, click_wemo_reset true nameOpt devs true = .ok t () ∧
      resetAttempts t = devs.map Device.name ∧
      resetOks t = (devs.filter resetSucceeds).map Device.name ∧
      (resetOks t).length =
        devs.length - (devs.filter fun d => !(resetSucceeds d)).length := by
  obtain ⟨t0, h0, hlog0⟩ := discover_ok_shape devs 0 hdisc
  obtain ⟨ra0, ro0, sa0, cp0, rd0⟩ := onlyLogs_no_events t0 hlog0
  obtain ⟨tl, hl, hal, hsl, hcl⟩ := reset_all_loop_spec devs hout
  have hcount : (devs.filter resetSucceeds).length =
      devs.length - (devs.filter fun d => !(resetSucceeds d)).length := by
    have := length_filter_not_add resetSucceeds devs
    omega
  have hwarn : ∃ w : Trace, resetAttempts w = [] ∧ resetOks w = [] ∧
      (match nameOpt with
        | some _ =>
          [Ev.log Level.warning "name %s ignored, all discovered devices will be reset"]
        | none => ([] : Trace)) = w := by
    cases nameOpt with
    | none => exact ⟨[], rfl, rfl, rfl⟩
    | some nm =>
      exact ⟨[Ev.log Level.warning "name %s ignored, all discovered devices will be reset"],
        rfl, rfl, rfl⟩
  obtain ⟨w, hwa, hwo, hw⟩ := hwarn
  by_cases he : devs.isEmpty
  · have hdevs : devs = [] := by simpa [List.isEmpty_iff] using he
    subst hdevs
    refine ⟨t0 ++ (w ++ [Ev.log .info "devices will take approximately 90 seconds to reset"]),
      ?_, ?_, ?_, ?_⟩
    · simp [click_wemo_reset, wemo_reset_body, h0, ← hw, Res.bind, Res.emit]
    · rw [resetAttempts_append, resetAttempts_append, ra0, hwa]
      rfl
    · rw [resetOks_append, resetOks_append, ro0, hwo]
      rfl
    · rw [resetOks_append, resetOks_append, ro0, hwo]
      rfl
  · have hne : devs.isEmpty = false := by simpa using he
    have hro : resetOks (t0 ++ (w ++ ([Ev.confirmPrompt ("Are you sure you want to reset all "
        ++ toString devs.length ++ " devices listed above?")] ++ (tl ++
        [Ev.log .info DASHES,
         Ev.log .info "devices will take approximately 90 seconds to reset"])))) =
        (devs.filter resetSucceeds).map Device.name := by
      rw [resetOks_append, resetOks_append, resetOks_append, resetOks_append, ro0, hwo, hsl]
      simp [resetOks]
    refine ⟨t0 ++ (w ++ ([Ev.confirmPrompt ("Are you sure you want to reset all "
        ++ toString devs.length ++ " devices listed above?")] ++ (tl ++
        [Ev.log .info DASHES,
         Ev.log .info "devices will take approximately 90 seconds to reset"]))),
      ?_, ?_, ?_, ?_⟩
    · simp only [click_wemo_reset, wemo_reset_body, h0, ← hw, hne, hl]
      cases nameOpt <;> simp [Res.bind, Res.emit, hne, h0, hl]
    · rw [resetAttempts_append, resetAttempts_append, resetAttempts_append,
        resetAttempts_append, ra0, hwa, hal]
      simp [resetAttempts]
    · exact hro
    · rw [hro, List.length_map]
      exact hcount

/-- Failing-reset device for the C2 witness. -/
def dC2fail : Device :=
  { name := "Lamp2", udn := "", host := "", services := [],
    call := fun _ _ => .raises .attributeError,
    resetResult := .error (.resetException "reset failed"), setupResult := .ok () }

/-- Witness for C2: of two discovered devices one fails its reset; both
are attempted in order, exactly one is reset, the command returns. -/
theorem C2_reset_all_resilience_witness :
    ∃ t, click_wemo_reset true none [mkDevice "Heater", dC2fail] true = .ok t () ∧
      resetAttempts t = ["Heater", "Lamp2"] ∧
      resetOks t = ["Heater"] ∧
      (resetOks t).length = 2 - 1 := by
  have hdisc : (discover_and_log_devices [mkDevice "Heater", dC2fail] false 0).isOk = true := by
    decide
  have hout : ∀ d ∈ [mkDevice "Heater", dC2fail], d.resetResult = .ok () ∨
      ∃ m, d.resetResult = .error (.resetException m) := by
    intro d hd
    rcases List.mem_cons.mp hd with rfl | hd2
    · exact Or.inl rfl
    · rcases List.mem_cons.mp hd2 with rfl | hd3
      · exact Or.inr ⟨"reset failed", rfl⟩
      · cases hd3
  obtain ⟨t, h1, h2, h3, h4⟩ := C2_reset_all_resilience none [mkDevice "Heater", dC2fail]
    hdisc hout
  refine ⟨t, h1, ?_, ?_, ?_⟩
  · simpa [mkDevice, dC2fail] using h2
  · simpa [mkDevice, dC2fail, resetSucceeds, List.filter_cons] using h3
  · simpa [mkDevice, dC2fail, resetSucceeds, List.filter_cons] using h4

/-- Claim C3: reset-phase / setup-phase errors are caught at the command
boundary: whenever the command body raises `ResetException` (for the
reset command) or `SetupException` (for the setup command), the command
returns normally, its trace is the trace so far plus exactly one final
critical log line carrying the message, and no further work follows; the
named raise sites — missing required option, no matching device, no
matching access points — all raise these domain exceptions inside the
body. -/
theorem C3_command_boundary_catch :
    (∀ (reset_all : Bool) (nameOpt : Option String) (devs : List Device)
        (conf : Bool) (t : Trace) (m : String),
        wemo_reset_body reset_all nameOpt devs conf = .err t (.resetException m) →
        click_wemo_reset reset_all nameOpt devs conf = .ok (t ++ [Ev.log .critical m]) ()) ∧
    (∀ (env : SetupEnv) (password : String) (setup_all : Bool)
        (nameOpt : Option String) (t : Trace) (m : String),
        wemo_setup_body env password setup_all nameOpt = .err t (.setupException m) →
        click_wemo_setup env password setup_all nameOpt = .ok (t ++ [Ev.log .critical m]) ()) ∧
    (∀ (devs : List Device) (conf : Bool),
        wemo_reset_body false none devs conf =
          .err [] (.resetException "--reset-all or --name=<str> is required")) ∧
    (∀ (env : SetupEnv) (password : String),
        wemo_setup_body env password false none =
          .err [Ev.log .info DASHES,
            Ev.log .info ("NOTE: If some or all devices fail to connect, try "
              ++ "re-running the same command a second time!"),
            Ev.log .info DASHES]
            (.setupException "--setup-all or --name=<str> is required")) ∧
    (∀ (devs : List Device) (n : String) (conf : Bool) (t0 : Trace) (ds : List Device),
        discover_and_log_devices devs false 0 = .ok t0 ds →
        select_by_name ds n = none →
        wemo_reset_body false (some n) devs conf =
          .err t0 (.resetException ("device named \"" ++ n ++ "\" not found"))) ∧
    (∀ (env : SetupEnv) (password : String) (nameOpt : Option String)
        (ts : Trace) (cur : String),
        find_wemo_aps env.scanOutcome = .ok ts ([], cur) →
        wemo_setup_body env password true nameOpt =
          .err ([Ev.log .info DASHES,
            Ev.log .info ("NOTE: If some or all devices fail to connect, try "
              ++ "re-running the same command a second time!"),
            Ev.log .info DASHES] ++ ts)
            (.setupException ("No valid Wemo device APs found.  Try running this "
              ++ "again, otherwise consider directly connecting to the "
              ++ "devices network and using the --name option."))) := by
  refine ⟨?_, ?_, ?_, ?_, ?_, ?_⟩
  · intro reset_all nameOpt devs conf t m h
    simp [click_wemo_reset, h]
  · intro env password setup_all nameOpt t m h
    simp [click_wemo_setup, h]
  · intro devs conf
    rfl
  · intro env password
    rfl
  · intro devs n conf t0 ds h0 hsel
    simp only [wemo_reset_body, h0, hsel]
    simp [Res.bind, hsel]
  · intro env password nameOpt ts cur hscan
    simp only [wemo_setup_body, hscan]
    simp [Res.bind, Res.emit]

/-- A trivial setup environment for witnesses. -/
def envTrivial : SetupEnv :=
  { scanOutcome := .okRun "", confirmAnswer := false, getpassResult := "",
    connectOutcome := fun _ => .okRun "", apDevices := fun _ => [],
    reconnectOutcome := .okRun "", devices := [] }

/-- Witness for C3: the missing-required-option raise of each command is
caught and turned into a single critical log line. -/
theorem C3_command_boundary_catch_witness :
    click_wemo_reset false none [] false =
      .ok [Ev.log .critical "--reset-all or --name=<str> is required"] () ∧
    click_wemo_setup envTrivial "pw" false none =
      .ok [Ev.log .info DASHES,
        Ev.log .info ("NOTE: If some or all devices fail to connect, try "
          ++ "re-running the same command a second time!"),
        Ev.log .info DASHES,
        Ev.log .critical "--setup-all or --name=<str> is required"] () := by
  constructor
  · exact C3_command_boundary_catch.1 false none [] false [] _
      (C3_command_boundary_catch.2.2.1 [] false)
  · exact C3_command_boundary_catch.2.1 envTrivial "pw" false none _ _
      (C3_command_boundary_catch.2.2.2.1 envTrivial "pw")

/-- True when the trace contains no device-setup attempt. -/
def noSetupEv (t : Trace) : Bool :=
  t.all fun e => match e with | Ev.setupAttempt _ => false | _ => true

/-- `noSetupEv` distributes over concatenation. -/
theorem noSetupEv_append (a b : Trace) :
    noSetupEv (a ++ b) = (noSetupEv a && noSetupEv b) := by
  simp [noSetupEv]

/-- `noSetupEv` on an empty trace. -/
theorem noSetupEv_nil : noSetupEv [] = true := rfl

/-- A log line preserves `noSetupEv`. -/
theorem noSetupEv_cons_log (lv : Level) (m : String) (t : Trace) :
    noSetupEv (Ev.log lv m :: t) = noSetupEv t := by
  simp [noSetupEv]

/-- A pure-log trace has no setup attempts. -/
theorem noSetupEv_of_onlyLogs (t : Trace) (h : onlyLogs t = true) : noSetupEv t = true := by
  induction t with
  | nil => rfl
  | cons e rest ih =>
    cases e with
    | log lv m =>
      rw [onlyLogs_cons_log] at h
      simpa [noSetupEv] using ih h
    | confirmPrompt m => simp [onlyLogs] at h
    | getpassPrompt => simp [onlyLogs] at h
    | resetAttempt n => simp [onlyLogs] at h
    | resetOk n => simp [onlyLogs] at h
    | renameDone a b => simp [onlyLogs] at h
    | setupAttempt n => simp [onlyLogs] at h
    | setupOk n => simp [onlyLogs] at h

/-- No setup event means the setup-attempt observable is empty. -/
theorem setupAttempts_eq_nil (t : Trace) (h : noSetupEv t = true) : setupAttempts t = [] := by
  simp only [noSetupEv, List.all_eq_true] at h
  simp only [setupAttempts, List.filterMap_eq_nil_iff]
  intro e he
  have := h e he
  cases e <;> simp_all

/-- Sequencing preserves the absence of setup events. -/
theorem noSetupEv_bind {α β : Type} (x : Res α) (f : α → Res β)
    (hx : noSetupEv x.trace = true) (hf : ∀ a, noSetupEv (f a).trace = true) :
    noSetupEv (x.bind f).trace = true := by
  cases x with
  | err t e => simpa [Res.bind, Res.trace] using hx
  | ok t a =>
    have hfa := hf a
    cases h : f a with
    | ok t2 b =>
      rw [h] at hfa
      simp only [Res.trace] at hx hfa
      simp [Res.bind, h, Res.trace, noSetupEv_append, hx, hfa]
    | err t2 e =>
      rw [h] at hfa
      simp only [Res.trace] at hx hfa
      simp [Res.bind, h, Res.trace, noSetupEv_append, hx, hfa]

/-- The scan-line loop emits log lines only. -/
theorem onlyLogs_scan_lines (lines : List String) :
    ∀ (wemos : List String) (current : String),
      onlyLogs (scan_lines lines wemos current).trace = true := by
  induction lines with
  | nil => intro wemos current; rfl
  | cons l rest ih =>
    intro wemos current
    by_cases hb : pyStrip l = ""
    · simp only [scan_lines]
      rw [if_pos hb]
      exact ih _ _
    · rcases hp : rsplit_colon_4 l with _ | p
      · simp [scan_lines, hb, hp, Res.trace, onlyLogs_nil]
      · obtain ⟨ssid, inUse, channel, signal, security⟩ := p
        simp only [scan_lines, hp]
        rw [if_neg hb]
        refine onlyLogs_bind _ _ ?_ fun _ => ih _ _
        rw [Res.trace_emit, onlyLogs_append]
        by_cases hi : inUse = "*" <;>
          by_cases hw : pyStartsWith (pyLower ssid) "wemo." = true <;>
            simp [hi, hw, onlyLogs_cons_log, onlyLogs_nil]

/-- The access-point scanner emits log lines only. -/
theorem onlyLogs_find_wemo_aps (scan : SubprocessOutcome) :
    onlyLogs (find_wemo_aps scan).trace = true := by
  cases scan with
  | toolMissing => rfl
  | nonzeroExit so se => rfl
  | okRun out =>
    simp only [find_wemo_aps]
    refine onlyLogs_bind _ _ ?_ fun _ => onlyLogs_scan_lines _ _ _
    rw [Res.trace_emit, onlyLogs_append]
    by_cases h : pyStrip out = "" <;> simp [h, onlyLogs_cons_log, onlyLogs_nil]

/-- Joining an AP that reveals no devices needing setup performs no setup
attempt. -/
theorem noSetupEv_connect_empty (env : SetupEnv) (ap : String)
    (h : env.apDevices ap = []) :
    noSetupEv (connect_to_wemo_and_setup env ap).trace = true := by
  cases hc : env.connectOutcome ap with
  | toolMissing => simp [connect_to_wemo_and_setup, hc, Res.trace, noSetupEv]
  | nonzeroExit so se => simp [connect_to_wemo_and_setup, hc, Res.trace, noSetupEv]
  | okRun out =>
    have hd : discover_and_log_devices (env.apDevices ap) true 0 = .ok [] [] := by
      rw [h]; rfl
    simp [connect_to_wemo_and_setup, hc, hd, setup_devices_loop, Res.bind, Res.emit,
      Res.trace, noSetupEv]

/-- The per-AP loop performs no setup attempt when every AP reveals no
devices needing setup. -/
theorem noSetupEv_ap_loop (env : SetupEnv) (h : ∀ ap, env.apDevices ap = []) :
    ∀ aps : List String, noSetupEv (ap_loop env aps).trace = true := by
  intro aps
  induction aps with
  | nil => rfl
  | cons ap rest ih =>
    have hc := noSetupEv_connect_empty env ap (h ap)
    simp only [ap_loop]
    refine noSetupEv_bind _ _ (by rfl) fun _ => ?_
    refine noSetupEv_bind _ _ ?_ fun _ => ih
    rcases hcc : connect_to_wemo_and_setup env ap with ⟨t, u⟩ | ⟨t, e⟩
    · rw [hcc] at hc
      simpa [Res.trace_emit] using hc
    · rw [hcc] at hc
      simp only [Res.trace] at hc
      cases e <;>
        simp [Res.trace_emit, Res.trace, Res.emit, noSetupEv_append, noSetupEv_cons_log,
          noSetupEv_nil, hc]

/-- The reconnect epilogue performs no setup attempt. -/
theorem noSetupEv_reconnect (env : SetupEnv) (current : String) :
    noSetupEv (reconnect_host env current).trace = true := by
  unfold reconnect_host
  split
  · refine noSetupEv_bind _ _ (by rfl) fun _ => ?_
    cases env.reconnectOutcome <;> rfl
  · rfl

/-- No setup is attempted by the setup-all body when every AP reveals
zero devices needing setup. -/
theorem noSetupEv_setup_all_body (env : SetupEnv) (password : String)
    (nameOpt : Option String) (h : ∀ ap, env.apDevices ap = []) :
    noSetupEv (wemo_setup_body env password true nameOpt).trace = true := by
  simp only [wemo_setup_body]
  refine noSetupEv_bind _ _ (by rfl) fun _ => ?_
  refine noSetupEv_bind _ _ (noSetupEv_of_onlyLogs _ (onlyLogs_find_wemo_aps _)) fun aps => ?_
  by_cases he : aps.1.isEmpty
  · simp [he, Res.trace, noSetupEv_nil]
  · simp only [he, Bool.false_eq_true, if_false]
    refine noSetupEv_bind _ _ (by rfl) fun _ => ?_
    by_cases hcf : env.confirmAnswer = true
    · simp only [hcf, if_true]
      refine noSetupEv_bind _ _ ?_ fun _ => ?_
      · by_cases hp : password = "" <;> simp [hp, Res.trace_emit] <;> rfl
      · refine noSetupEv_bind _ _ (noSetupEv_ap_loop env h _) fun _ => ?_
        refine noSetupEv_bind _ _ (by rfl) fun _ => noSetupEv_reconnect env _
    · simp only [Bool.not_eq_true] at hcf
      simp [hcf, Res.trace, noSetupEv_nil]

/-- The setup-all command performs no setup attempt when every AP reveals
zero devices needing setup, whatever else the environment does. -/
theorem setupAttempts_click_setup_all (env : SetupEnv) (password : String)
    (nameOpt : Option String) (h : ∀ ap, env.apDevices ap = []) :
    setupAttempts (click_wemo_setup env password true nameOpt).trace = [] := by
  have hb := noSetupEv_setup_all_body env password nameOpt h
  rcases hh : wemo_setup_body env password true nameOpt with ⟨t, u⟩ | ⟨t, e⟩
  · rw [hh] at hb
    simp only [Res.trace] at hb
    apply setupAttempts_eq_nil
    simp [click_wemo_setup, hh, Res.trace, hb]
  · rw [hh] at hb
    simp only [Res.trace] at hb
    cases e <;>
      (apply setupAttempts_eq_nil
       simp [click_wemo_setup, hh, Res.trace, noSetupEv_append, noSetupEv_cons_log,
         noSetupEv_nil, hb])

/-- Environment for the C5 counterexample: the scan lists one wemo AP,
the user confirms, and zero devices needing setup are found on it. -/
def envC5 : SetupEnv :=
  { scanOutcome := .okRun "Wemo.Mini.123::6:70:WPA2",
    confirmAnswer := true, getpassResult := "pw",
    connectOutcome := fun _ => .okRun "connected",
    apDevices := fun _ => [], reconnectOutcome := .okRun "", devices := [] }

/-- Claim C5 (counterexample): in the setup-all workflow with one matched
wemo AP and zero discovered devices, the confirmation prompt is shown
(it is keyed to the AP count, before any device discovery) and the line
`found 0 devices` is never logged (needing-setup discovery returns before
the device-count line), contradicting the claim for setup-all; no setup
is attempted. -/
theorem C5_counterexample_setup_all :
    envC5.apDevices "Wemo.Mini.123" = [] ∧
    (click_wemo_setup envC5 "secret" true none).isOk = true ∧
    confirmPrompts (click_wemo_setup envC5 "secret" true none).trace =
      ["Are you sure you want to setup all 1 \"expected wemo\" devices listed above?"] ∧
    mentionsMsg (click_wemo_setup envC5 "secret" true none).trace "found 0 devices" = false ∧
    setupAttempts (click_wemo_setup envC5 "secret" true none).trace = [] := by
  exact ⟨rfl, by decide, by decide, by decide, by decide⟩

/-- Claim C5 (amended): with zero discovered devices the list, rename and
reset-all workflows log `found 0 devices` and perform no per-device
action, and reset-all shows no confirmation prompt; in setup-all the
confirmation prompt is keyed to the matched access points rather than to
devices, the needing-setup discovery never logs a device count, and no
setup is attempted when every AP reveals zero devices. -/
theorem C5_zero_devices_behaviour :
    (∀ info : Nat, wemo_discover [] info = .ok [Ev.log .info "found 0 devices"] ()) ∧
    (∀ (rows : List (List String))
        (maps : List (String × String) × List (String × String)),
        parse_rename_rows rows [] [] = .ok maps →
        wemo_rename rows [] = .ok [Ev.log .info "found 0 devices"] ()) ∧
    (∀ (nameOpt : Option String) (conf : Bool),
        (click_wemo_reset true nameOpt [] conf).isOk = true ∧
        mentionsMsg (click_wemo_reset true nameOpt [] conf).trace "found 0 devices" = true ∧
        confirmPrompts (click_wemo_reset true nameOpt [] conf).trace = [] ∧
        resetAttempts (click_wemo_reset true nameOpt [] conf).trace = []) ∧
    (∀ (env : SetupEnv) (password : String) (nameOpt : Option String),
        (∀ ap, env.apDevices ap = []) →
        setupAttempts (click_wemo_setup env password true nameOpt).trace = []) := by
  refine ⟨?_, ?_, ?_, ?_⟩
  · intro info
    rfl
  · intro rows maps hp
    have hd : discover_and_log_devices [] false 0 =
        .ok [Ev.log .info "found 0 devices"] [] := rfl
    simp [wemo_rename, hp, hd, rename_loop, Res.bind]
  · intro nameOpt conf
    cases nameOpt with
    | none =>
      have h : click_wemo_reset true none [] conf =
          .ok [Ev.log .info "found 0 devices",
            Ev.log .info "devices will take approximately 90 seconds to reset"] () := rfl
      rw [h]
      exact ⟨rfl, by decide, rfl, rfl⟩
    | some nm =>
      have h : click_wemo_reset true (some nm) [] conf =
          .ok [Ev.log .info "found 0 devices",
            Ev.log .warning "name %s ignored, all discovered devices will be reset",
            Ev.log .info "devices will take approximately 90 seconds to reset"] () := rfl
      rw [h]
      exact ⟨rfl, by decide, rfl, rfl⟩
  · exact setupAttempts_click_setup_all

/-- Witness for the amended C5: a concrete rename run over zero devices
logs `found 0 devices` and renames nothing; a concrete setup-all run with
devices nowhere attempts no setup. -/
theorem C5_zero_devices_behaviour_witness :
    wemo_rename [["", "10.0.0.5", "Kitchen Light"]] [] =
      .ok [Ev.log .info "found 0 devices"] () ∧
    setupAttempts (click_wemo_setup envTrivial "pw" true none).trace = [] := by
  constructor
  · exact C5_zero_devices_behaviour.2.1 [["", "10.0.0.5", "Kitchen Light"]]
      ([], [("10.0.0.5", "Kitchen Light")]) (by rfl)
  · exact C5_zero_devices_behaviour.2.2.2 envTrivial "pw" none (fun ap => rfl)
